import Mathlib

/-!
Shallow embedding of `iroh-bitswap/src/network.rs`: the outbound event
queue, the retry/timeout send engine, the bandwidth-aware timeout
calculation, the message-sender handle and the ping operation.

All durations are modelled in milliseconds as natural numbers.
Asynchronous awaits are modelled by an environment (`SendEnv`) that
supplies, per attempt, how long the driver takes to answer and what the
answer is; `tokio::time::timeout` is modelled by comparing accumulated
elapsed time against the deadline at every suspension point (with ties
resolved in favour of the inner future, which tokio polls first).
-/

namespace IrohBitswap

/-- Type `libp2p::PeerId`, abstracted to a number. -/
abbrev PeerId := Nat

/-- Type `libp2p::core::connection::ConnectionId`, abstracted to a number. -/
abbrev ConnectionId := Nat

/-- Modelled from the spec: `BitswapMessage` (message.rs is not in src/);
the only observable the network layer uses is its encoded length in bytes. -/
structure BitswapMessage where
  encoded_len : Nat
deriving Repr, DecidableEq

/-- Modelled from the spec: `ProtocolId` (protocol.rs is not in src/); the
negotiated protocol carries a supports-have capability queried by
`MessageSender::supports_have`. -/
structure ProtocolId where
  supports_have : Bool
deriving Repr, DecidableEq

/-- Constant `const CONNECT_TIMEOUT: Duration = Duration::from_secs(5)` (ms). -/
def CONNECT_TIMEOUT : Nat := 5000

/-- Constant `const MAX_SEND_TIMEOUT: Duration = Duration::from_secs(60)` (ms). -/
def MAX_SEND_TIMEOUT : Nat := 60000

/-- Constant `const MIN_SEND_TIMEOUT: Duration = Duration::from_secs(2)` (ms). -/
def MIN_SEND_TIMEOUT : Nat := 2000

/-- Constant `const SEND_LATENCY: Duration = Duration::from_secs(1)` (ms). -/
def SEND_LATENCY : Nat := 1000

/-- Constant `const MIN_SEND_RATE: u64 = (100 * 1000) / 8` (bytes per second). -/
def MIN_SEND_RATE : Nat := (100 * 1000) / 8

/-- Function `fn send_timeout(size: usize) -> Duration`:
`SEND_LATENCY + Duration::from_secs(size as u64 / MIN_SEND_RATE)`, then the
if/else clamp chain against `MAX_SEND_TIMEOUT` and `MIN_SEND_TIMEOUT`.
`Duration::from_secs(n)` contributes `n * 1000` milliseconds. -/
def send_timeout (size : Nat) : Nat :=
  let timeout := SEND_LATENCY + (size / MIN_SEND_RATE) * 1000
  if timeout > MAX_SEND_TIMEOUT then MAX_SEND_TIMEOUT
  else if timeout < MIN_SEND_TIMEOUT then MIN_SEND_TIMEOUT
  else timeout

/-- Rust `enum SendError` from network.rs. -/
inductive SendError
  | protocolNotSupported
  | other (msg : String)
deriving Repr, DecidableEq

/-- One error recorded by the retry loop in its `errors` vector: either the
oneshot reply channel was dropped (`r.await` returned a `RecvError`) or the
driver answered `Err(SendError::Other(msg))`. -/
inductive LoopError
  | recvError
  | sendError (msg : String)
deriving Repr, DecidableEq

/-- What the oneshot reply `r.await` of one attempt resolves to:
`Ok(Ok(()))`, `Ok(Err(e))`, or `Err(RecvError)` (sender dropped). -/
inductive Reply
  | ok
  | err (e : SendError)
  | closed
deriving Repr, DecidableEq

/-- Environment of one run of the retry loop. Per attempt index `i` it
fixes: whether the crossbeam send of the `SendMessage` event succeeds (the
channel is connected), how many ms pass until the oneshot reply resolves,
and what the reply resolves to. -/
structure SendEnv where
  enqueueOk : Nat → Bool
  replyDelay : Nat → Nat
  reply : Nat → Reply

/-- Observable outcome of `send_message_with_retry_and_timeout`. -/
inductive Outcome
  | success
  | protocolNotSupported
  | exhausted (errors : List LoopError)
  | channelError
  | timedOut
deriving Repr, DecidableEq

/-- Trace of one run: number of `SendMessage` events enqueued, number of
completed backoff sleeps, the enqueued requests as
(enqueue time, connection hint) pairs, and the outcome. -/
structure RunResult where
  attempts : Nat
  sleeps : Nat
  requests : List (Nat × Option ConnectionId)
  outcome : Outcome
deriving Repr, DecidableEq

/-- The `for i in 0..retries` loop body of
`send_message_with_retry_and_timeout`, fuel-indexed: `k` is the number of
remaining iterations (`retries - i`) and `i` the Rust loop index. Each
iteration enqueues a `SendMessage` event (failing the whole operation if
the crossbeam channel is disconnected), awaits the oneshot reply, returns
on `Ok`, aborts on `ProtocolNotSupported`, records other errors and sleeps
`backoff` when `i < retries - 1`. The surrounding `tokio::time::timeout`
is modelled by comparing elapsed time with `timeout` at each await point;
a tie is resolved for the inner future, which tokio polls first. -/
def sendLoopAux (env : SendEnv) (retries backoff timeout : Nat)
    (hint : Option ConnectionId) :
    Nat → Nat → Nat → Nat → Nat → List (Nat × Option ConnectionId) →
    List LoopError → RunResult
  | 0, _i, _elapsed, attempts, sleeps, reqs, errors =>
      ⟨attempts, sleeps, reqs, .exhausted errors⟩
  | k + 1, i, elapsed, attempts, sleeps, reqs, errors =>
      if env.enqueueOk i then
        if timeout < elapsed + env.replyDelay i then
          ⟨attempts + 1, sleeps, reqs ++ [(elapsed, hint)], .timedOut⟩
        else
          match env.reply i with
          | .ok => ⟨attempts + 1, sleeps, reqs ++ [(elapsed, hint)], .success⟩
          | .err .protocolNotSupported =>
              ⟨attempts + 1, sleeps, reqs ++ [(elapsed, hint)],
               .protocolNotSupported⟩
          | .err (.other m) =>
              if i < retries - 1 then
                if timeout < elapsed + env.replyDelay i + backoff then
                  ⟨attempts + 1, sleeps, reqs ++ [(elapsed, hint)], .timedOut⟩
                else
                  sendLoopAux env retries backoff timeout hint k (i + 1)
                    (elapsed + env.replyDelay i + backoff) (attempts + 1)
                    (sleeps + 1) (reqs ++ [(elapsed, hint)])
                    (errors ++ [.sendError m])
              else
                sendLoopAux env retries backoff timeout hint k (i + 1)
                  (elapsed + env.replyDelay i) (attempts + 1) sleeps
                  (reqs ++ [(elapsed, hint)]) (errors ++ [.sendError m])
          | .closed =>
              if i < retries - 1 then
                if timeout < elapsed + env.replyDelay i + backoff then
                  ⟨attempts + 1, sleeps, reqs ++ [(elapsed, hint)], .timedOut⟩
                else
                  sendLoopAux env retries backoff timeout hint k (i + 1)
                    (elapsed + env.replyDelay i + backoff) (attempts + 1)
                    (sleeps + 1) (reqs ++ [(elapsed, hint)])
                    (errors ++ [.recvError])
              else
                sendLoopAux env retries backoff timeout hint k (i + 1)
                  (elapsed + env.replyDelay i) (attempts + 1) sleeps
                  (reqs ++ [(elapsed, hint)]) (errors ++ [.recvError])
      else
        ⟨attempts, sleeps, reqs, .channelError⟩

/-- Function `Network::send_message_with_retry_and_timeout(peer, connection_id,
message, retries, timeout, backoff)`: runs the loop with fuel `retries`
from index 0, time 0, empty error vector. -/
def send_message_with_retry_and_timeout (env : SendEnv)
    (hint : Option ConnectionId) (retries timeout backoff : Nat) : RunResult :=
  sendLoopAux env retries backoff timeout hint retries 0 0 0 0 [] []

/-- The error carried by the Rust `Result<()>` for each outcome:
`timedOut` is tokio's `Elapsed` deadline error, `exhausted` is the
`bail!` aggregating the collected errors. -/
inductive EngineError
  | elapsed
  | protocolNotSupported
  | aggregated (errors : List LoopError)
  | channelSendFailed
deriving Repr, DecidableEq

/-- Maps an outcome to the `Result<()>` the Rust function returns. -/
def finalResult : Outcome → Except EngineError Unit
  | .success => .ok ()
  | .protocolNotSupported => .error .protocolNotSupported
  | .exhausted es => .error (.aggregated es)
  | .channelError => .error .channelSendFailed
  | .timedOut => .error .elapsed

/-- Wall time a run of the loop needs to complete `k` transiently failing
iterations starting at index `i`: each attempt waits out its reply delay
and, on every iteration but the last, a backoff sleep follows. -/
def loopBudget (env : SendEnv) (backoff : Nat) : Nat → Nat → Nat
  | _i, 0 => 0
  | i, 1 => env.replyDelay i
  | i, k + 2 => env.replyDelay i + backoff + loopBudget env backoff (i + 1) (k + 1)

/-- The error the loop records for a transiently failing attempt `j`: a
dropped reply channel is recorded as the `RecvError`, a driver-reported
`SendError::Other(m)` as that error. (An attempt answered `Ok` or
`ProtocolNotSupported` records nothing — the loop returns instead — so the
value of this function there is never used.) -/
def recordedError (env : SendEnv) (j : Nat) : LoopError :=
  match env.reply j with
  | .err (.other m) => .sendError m
  | _ => .recvError

/-- Result of `Network::dial` as seen by callers: `none` models a failed
dial (dial timeout, channel failure or driver-reported refusal). -/
abbrev DialResult := Option (ConnectionId × ProtocolId)

/-- Function `Network::send_message(peer, message)`: dials the peer with
`CONNECT_TIMEOUT`, fails if the dial fails, then delegates to
`send_message_with_retry_and_timeout` with no connection hint, 1 retry,
`send_timeout(message.encoded_len())` as overall timeout and a 100 ms
backoff. `dial` gives the dial outcome for the timeout it is passed. -/
def send_message (env : SendEnv) (dial : Nat → DialResult)
    (message : BitswapMessage) : Option RunResult :=
  match dial CONNECT_TIMEOUT with
  | none => none
  | some _ => some (send_message_with_retry_and_timeout env none 1
      (send_timeout message.encoded_len) 100)

/-- Rust `struct MessageSenderConfig` from network.rs (durations in ms). -/
structure MessageSenderConfig where
  max_retries : Nat
  send_timeout : Nat
  send_error_backoff : Nat
deriving Repr, DecidableEq

/-- Instance `impl Default for MessageSenderConfig`. -/
def MessageSenderConfig.default : MessageSenderConfig :=
  ⟨3, MAX_SEND_TIMEOUT, 100⟩

/-- Rust `struct MessageSender` from network.rs: the handle caching the dial
result (connection id and negotiated protocol). -/
structure MessageSender where
  to_peer : PeerId
  config : MessageSenderConfig
  connection_id : ConnectionId
  protocol_id : ProtocolId
deriving Repr, DecidableEq

/-- Method `MessageSender::supports_have`: reads the cached protocol id. -/
def MessageSender.supports_have (s : MessageSender) : Bool :=
  s.protocol_id.supports_have

/-- Function `Network::new_message_sender(to, config)`: performs the single
`self.dial(to, CONNECT_TIMEOUT)` and caches its result in the handle.
Returns the list of (peer, timeout) dial calls performed together with the
handle (`none` when the dial failed). -/
def new_message_sender (dialFn : PeerId → Nat → DialResult)
    (to_peer : PeerId) (config : MessageSenderConfig) :
    List (PeerId × Nat) × Option MessageSender :=
  ([(to_peer, CONNECT_TIMEOUT)],
    match dialFn to_peer CONNECT_TIMEOUT with
    | none => none
    | some (cid, pid) => some ⟨to_peer, config, cid, pid⟩)

/-- The `Duration::from_secs(30)` wrapping `Network::ping` (ms). -/
def PING_TIMEOUT : Nat := 30000

/-- What the ping oneshot reply resolves to: dropped sender, or the
driver-supplied `Option<Duration>` (`none` = no measurement available). -/
inductive PingReply
  | closed
  | value (v : Option Nat)
deriving Repr, DecidableEq

/-- Result of `Network::ping`. -/
inductive PingResult
  | elapsed
  | channelError
  | recvError
  | noPingAvailable
  | ok (d : Nat)
deriving Repr, DecidableEq

/-- Function `Network::ping(peer)`: inside `tokio::time::timeout(30s, ...)`, sends a
`GenerateEvent(BitswapEvent::Ping)` (failing on a channel error), awaits
the oneshot reply, and turns a `None` measurement into the
"no ping available" error. `sendOk` is whether the crossbeam send
succeeds, `delay` how long the reply takes, `rep` what it resolves to. -/
def ping (sendOk : Bool) (delay : Nat) (rep : PingReply) : PingResult :=
  if !sendOk then .channelError
  else if PING_TIMEOUT < delay then .elapsed
  else match rep with
    | .closed => .recvError
    | .value none => .noPingAvailable
    | .value (some d) => .ok d

/-- The bound passed to `crossbeam::channel::bounded(1024)` in
`Network::new`. -/
def NETWORK_QUEUE_CAP : Nat := 1024

/-- The outbound event queue: a bounded channel with its capacity and the
events currently enqueued (FIFO). -/
structure BoundedQueue (α : Type) where
  cap : Nat
  items : List α
deriving Repr, DecidableEq

/-- Result of `crossbeam::channel::Sender::send` on a bounded channel. -/
inductive ChanSendResult (α : Type)
  | sent (q : BoundedQueue α)
  | blocked
  | disconnected
deriving Repr, DecidableEq

/-- Operation `crossbeam::channel::Sender::send` on the bounded channel created by
`Network::new`: the message is appended when the queue is below capacity;
when the queue is full the call blocks the calling thread until space
frees (modelled by `.blocked`); it returns `Err(SendError)` only when the
channel is disconnected. There is no queue-full error return. -/
def channelSend {α : Type} (connected : Bool) (q : BoundedQueue α)
    (a : α) : ChanSendResult α :=
  if !connected then .disconnected
  else if q.items.length < q.cap then .sent ⟨q.cap, q.items ++ [a]⟩
  else .blocked

/-- Whether the call returned control to the caller immediately (success
or error) rather than blocking. -/
def ChanSendResult.isImmediate {α : Type} : ChanSendResult α → Bool
  | .blocked => false
  | _ => true

/-- A full outbound queue at the capacity used by `Network::new`. -/
def fullNetworkQueue : BoundedQueue Nat :=
  ⟨NETWORK_QUEUE_CAP, List.replicate NETWORK_QUEUE_CAP 0⟩

/-- Environment where every reply channel is dropped immediately. -/
def allClosedEnv : SendEnv := ⟨fun _ => true, fun _ => 0, fun _ => .closed⟩

/-- Environment where the first reply is `ProtocolNotSupported`. -/
def pnsEnv : SendEnv :=
  ⟨fun _ => true, fun _ => 0, fun _ => .err .protocolNotSupported⟩

/-- Environment where every reply takes 100 ms and is dropped. -/
def slowEnv : SendEnv := ⟨fun _ => true, fun _ => 100, fun _ => .closed⟩

/-- C4: `send_timeout` equals base latency 1s plus `size / 12_500` seconds
clamped to [2s, 60s]; `send_timeout 0 = 2s`; every size of at least
750_000 bytes gives exactly 60s; every result lies within [2s, 60s]. -/
theorem send_timeout_clamped_form :
    (∀ s, send_timeout s =
      min MAX_SEND_TIMEOUT (max MIN_SEND_TIMEOUT (SEND_LATENCY + (s / MIN_SEND_RATE) * 1000)))
    ∧ send_timeout 0 = 2000
    ∧ (∀ s, send_timeout (750000 + s) = 60000)
    ∧ (∀ s, 2000 ≤ send_timeout s ∧ send_timeout s ≤ 60000) := by
  refine ⟨?_, by decide, ?_, ?_⟩
  · intro s
    simp only [send_timeout, SEND_LATENCY, MAX_SEND_TIMEOUT, MIN_SEND_TIMEOUT, MIN_SEND_RATE]
    split_ifs <;> omega
  · intro s
    simp only [send_timeout, SEND_LATENCY, MAX_SEND_TIMEOUT, MIN_SEND_TIMEOUT, MIN_SEND_RATE]
    have h : (750000 + s) / 12500 = 60 + s / 12500 := by
      have hrw : 750000 + s = s + 60 * 12500 := by omega
      rw [hrw, Nat.add_mul_div_right _ _ (by norm_num : 0 < 12500)]
      omega
    norm_num [h] at *
    split_ifs <;> omega
  · intro s
    simp only [send_timeout, SEND_LATENCY, MAX_SEND_TIMEOUT, MIN_SEND_TIMEOUT, MIN_SEND_RATE]
    split_ifs <;> omega

/-- C5: `send_timeout` is monotonically non-decreasing in the size. -/
theorem send_timeout_monotone (s₁ s₂ : Nat) (h : s₁ ≤ s₂) :
    send_timeout s₁ ≤ send_timeout s₂ := by
  simp only [send_timeout, SEND_LATENCY, MAX_SEND_TIMEOUT, MIN_SEND_TIMEOUT, MIN_SEND_RATE]
  have hdiv : s₁ / 12500 ≤ s₂ / 12500 := Nat.div_le_div_right h
  norm_num at *
  split_ifs <;> omega

/-- Witness for C5: monotonicity evaluated at sizes 0 and 12500. -/
theorem send_timeout_monotone_witness :
    (0 : Nat) ≤ 12500 ∧ send_timeout 0 ≤ send_timeout 12500 :=
  ⟨by decide, send_timeout_monotone 0 12500 (by decide)⟩

/-- Helper for C1: a run of the loop whose every attempt fails transiently
and whose schedule fits the deadline makes one attempt per remaining
iteration, sleeps after every iteration but the last, and exhausts with
the per-attempt recorded errors appended in order. -/
theorem sendLoopAux_all_transient (env : SendEnv)
    (retries backoff timeout : Nat) (hint : Option ConnectionId)
    (henq : ∀ j, env.enqueueOk j = true)
    (htrans : ∀ j, j < retries →
      env.reply j = .closed ∨ ∃ m, env.reply j = .err (.other m)) :
    ∀ k i elapsed attempts sleeps reqs errors, i + k = retries →
      elapsed + loopBudget env backoff i k ≤ timeout →
      ∃ rs, sendLoopAux env retries backoff timeout hint k i elapsed attempts
          sleeps reqs errors =
        ⟨attempts + k, sleeps + (k - 1), reqs ++ rs,
         .exhausted (errors ++ (List.range' i k).map (recordedError env))⟩ := by
  intro k
  induction k with
  | zero =>
      intro i elapsed attempts sleeps reqs errors hik hbud
      exact ⟨[], by simp [sendLoopAux]⟩
  | succ k ih =>
      intro i elapsed attempts sleeps reqs errors hik hbud
      have hi : i < retries := by omega
      rcases k with _ | k'
      · -- last iteration: no sleep afterwards
        simp only [loopBudget] at hbud
        have hnl : ¬ i < retries - 1 := by omega
        refine ⟨[(elapsed, hint)], ?_⟩
        rcases htrans i hi with hrep | ⟨m, hrep⟩ <;>
          simp [sendLoopAux, henq i, hrep, if_neg (by omega : ¬ timeout < elapsed + env.replyDelay i),
            hnl, recordedError]
      · -- at least one further iteration: backoff sleep then recurse
        simp only [loopBudget] at hbud
        have hil : i < retries - 1 := by omega
        have harr : ¬ timeout < elapsed + env.replyDelay i := by omega
        have hslp : ¬ timeout < elapsed + env.replyDelay i + backoff := by omega
        rcases htrans i hi with hrep | ⟨m, hrep⟩
        · obtain ⟨rs, heq⟩ := ih (i + 1) (elapsed + env.replyDelay i + backoff)
            (attempts + 1) (sleeps + 1) (reqs ++ [(elapsed, hint)])
            (errors ++ [.recvError]) (by omega) (by omega)
          refine ⟨(elapsed, hint) :: rs, ?_⟩
          rw [sendLoopAux]
          simp only [henq i, eq_self_iff_true, if_true, if_neg harr, hrep,
            if_pos hil, if_neg hslp]
          rw [heq]
          simp only [RunResult.mk.injEq]
          refine ⟨by omega, by omega, by simp, ?_⟩
          simp [List.range'_succ, recordedError, hrep]
        · obtain ⟨rs, heq⟩ := ih (i + 1) (elapsed + env.replyDelay i + backoff)
            (attempts + 1) (sleeps + 1) (reqs ++ [(elapsed, hint)])
            (errors ++ [.sendError m]) (by omega) (by omega)
          refine ⟨(elapsed, hint) :: rs, ?_⟩
          rw [sendLoopAux]
          simp only [henq i, eq_self_iff_true, if_true, if_neg harr, hrep,
            if_pos hil, if_neg hslp]
          rw [heq]
          simp only [RunResult.mk.injEq]
          refine ⟨by omega, by omega, by simp, ?_⟩
          simp [List.range'_succ, recordedError, hrep]

/-- C1: for every `max_retries = N ≥ 1`, when every attempt resolves with a
transient failure (an `Other` reply or a dropped reply channel) and the
failure/backoff schedule fits inside the overall timeout, the engine makes
exactly `N` attempts, completes exactly `N - 1` backoff sleeps between
consecutive attempts, and returns the aggregated failure carrying the `N`
recorded errors, one per attempt in order. -/
theorem sendWithRetry_all_transient_spec (env : SendEnv)
    (hint : Option ConnectionId) (N timeout backoff : Nat) (hN : 1 ≤ N)
    (henq : ∀ j, env.enqueueOk j = true)
    (htrans : ∀ j, j < N →
      env.reply j = .closed ∨ ∃ m, env.reply j = .err (.other m))
    (hbudget : loopBudget env backoff 0 N ≤ timeout) :
    ∃ rs, send_message_with_retry_and_timeout env hint N timeout backoff =
        ⟨N, N - 1, rs, .exhausted ((List.range N).map (recordedError env))⟩
      ∧ ((List.range N).map (recordedError env)).length = N := by
  obtain ⟨rs, heq⟩ := sendLoopAux_all_transient env N backoff timeout hint
    henq htrans N 0 0 0 0 [] [] (by omega) (by omega)
  refine ⟨rs, ?_, by simp⟩
  rw [send_message_with_retry_and_timeout, heq]
  simp [List.range_eq_range']

/-- Witness for C1: three attempts, all dropped reply channels. -/
theorem sendWithRetry_all_transient_spec_witness :
    ∃ rs, send_message_with_retry_and_timeout allClosedEnv none 3 60000 100 =
        ⟨3, 3 - 1, rs, .exhausted ((List.range 3).map (recordedError allClosedEnv))⟩
      ∧ ((List.range 3).map (recordedError allClosedEnv)).length = 3 :=
  sendWithRetry_all_transient_spec allClosedEnv none 3 60000 100 (by decide)
    (fun _ => rfl) (fun _ _ => Or.inl rfl) (by decide)

/-- C2: when the first attempt's reply is `ProtocolNotSupported` (within
the deadline), the engine performs exactly 1 attempt, returns that fatal
failure immediately and never sleeps for backoff, whatever `N ≥ 1` is. -/
theorem sendWithRetry_protocol_not_supported (env : SendEnv)
    (hint : Option ConnectionId) (N timeout backoff : Nat) (hN : 1 ≤ N)
    (henq : env.enqueueOk 0 = true)
    (hrep : env.reply 0 = .err .protocolNotSupported)
    (hdel : env.replyDelay 0 ≤ timeout) :
    send_message_with_retry_and_timeout env hint N timeout backoff =
      ⟨1, 0, [(0, hint)], .protocolNotSupported⟩ := by
  obtain ⟨n, rfl⟩ : ∃ n, N = n + 1 := ⟨N - 1, by omega⟩
  rw [send_message_with_retry_and_timeout]
  simp [sendLoopAux, henq, hrep, Nat.not_lt.mpr hdel]

/-- Witness for C2: `N = 3`, fatal first reply, one attempt, no sleep. -/
theorem sendWithRetry_protocol_not_supported_witness :
    send_message_with_retry_and_timeout pnsEnv none 3 5000 100 =
      ⟨1, 0, [(0, none)], .protocolNotSupported⟩ :=
  sendWithRetry_protocol_not_supported pnsEnv none 3 5000 100 (by decide)
    rfl rfl (by decide)

/-- Helper for C6: every `SendMessage` request the loop enqueues is
enqueued at a time not later than the deadline. -/
theorem sendLoopAux_requests_before_deadline (env : SendEnv)
    (retries backoff timeout : Nat) (hint : Option ConnectionId) :
    ∀ k i elapsed attempts sleeps reqs errors, elapsed ≤ timeout →
      (∀ p ∈ reqs, p.1 ≤ timeout) →
      ∀ p ∈ (sendLoopAux env retries backoff timeout hint k i elapsed attempts
          sleeps reqs errors).requests, p.1 ≤ timeout := by
  intro k
  induction k with
  | zero =>
      intro i elapsed attempts sleeps reqs errors _ hreqs
      simpa [sendLoopAux] using hreqs
  | succ k ih =>
      intro i elapsed attempts sleeps reqs errors helapsed hreqs
      have hreqs' : ∀ p ∈ reqs ++ [(elapsed, hint)], p.1 ≤ timeout := by
        intro p hp
        rcases List.mem_append.mp hp with h | h
        · exact hreqs p h
        · simp at h
          simp [h, helapsed]
      simp only [sendLoopAux]
      by_cases he : env.enqueueOk i
      · simp only [he, if_true]
        by_cases ht : timeout < elapsed + env.replyDelay i
        · simpa [ht] using hreqs'
        · simp only [ht, if_false]
          rcases hrep : env.reply i with _ | e | _
          · simpa using hreqs'
          · rcases e with _ | m
            · simpa using hreqs'
            · by_cases hil : i < retries - 1
              · by_cases hs : timeout < elapsed + env.replyDelay i + backoff
                · simpa [hil, hs] using hreqs'
                · simp only [hil, if_true, hs, if_false]
                  exact ih (i + 1) (elapsed + env.replyDelay i + backoff)
                    (attempts + 1) (sleeps + 1) (reqs ++ [(elapsed, hint)])
                    (errors ++ [.sendError m]) (by omega) hreqs'
              · simp only [hil, if_false]
                exact ih (i + 1) (elapsed + env.replyDelay i)
                  (attempts + 1) sleeps (reqs ++ [(elapsed, hint)])
                  (errors ++ [.sendError m]) (by omega) hreqs'
          · by_cases hil : i < retries - 1
            · by_cases hs : timeout < elapsed + env.replyDelay i + backoff
              · simpa [hil, hs] using hreqs'
              · simp only [hil, if_true, hs, if_false]
                exact ih (i + 1) (elapsed + env.replyDelay i + backoff)
                  (attempts + 1) (sleeps + 1) (reqs ++ [(elapsed, hint)])
                  (errors ++ [.recvError]) (by omega) hreqs'
            · simp only [hil, if_false]
              exact ih (i + 1) (elapsed + env.replyDelay i)
                (attempts + 1) sleeps (reqs ++ [(elapsed, hint)])
                (errors ++ [.recvError]) (by omega) hreqs'
      · simpa [he] using hreqs

/-- C6: when the overall timeout elapses before the retry loop concludes,
the operation fails with the deadline-exceeded (`Elapsed`) error, and the
engine enqueues no send attempt after the deadline: every enqueued request
is enqueued at a time not later than the deadline. -/
theorem sendWithRetry_deadline_spec (env : SendEnv)
    (hint : Option ConnectionId) (retries timeout backoff : Nat)
    (htimeout : (send_message_with_retry_and_timeout env hint retries timeout
      backoff).outcome = .timedOut) :
    finalResult (send_message_with_retry_and_timeout env hint retries timeout
        backoff).outcome = .error .elapsed
    ∧ ∀ p ∈ (send_message_with_retry_and_timeout env hint retries timeout
        backoff).requests, p.1 ≤ timeout := by
  refine ⟨by rw [htimeout]; rfl, ?_⟩
  exact sendLoopAux_requests_before_deadline env retries backoff timeout hint
    retries 0 0 0 0 [] [] (Nat.zero_le _) (by simp)

/-- Witness for C6: a reply slower than the deadline times the run out. -/
theorem sendWithRetry_deadline_spec_witness :
    finalResult (send_message_with_retry_and_timeout slowEnv none 1 10
        100).outcome = .error .elapsed
    ∧ ∀ p ∈ (send_message_with_retry_and_timeout slowEnv none 1 10
        100).requests, p.1 ≤ 10 :=
  sendWithRetry_deadline_spec slowEnv none 1 10 100 (by decide)

/-- C9: with `retries = 0` the loop body never runs: no `SendMessage` is
enqueued, no backoff sleep happens, and the function returns the
"all attempts exhausted" failure carrying an empty error list — it neither
succeeds nor panics. -/
theorem sendWithRetry_zero_retries (env : SendEnv) (hint : Option ConnectionId)
    (timeout backoff : Nat) :
    send_message_with_retry_and_timeout env hint 0 timeout backoff =
      ⟨0, 0, [], .exhausted []⟩ ∧
    finalResult (send_message_with_retry_and_timeout env hint 0 timeout
        backoff).outcome = .error (.aggregated []) :=
  ⟨rfl, rfl⟩

/-- Helper for C10: a run with `retries = 1` never backoff-sleeps, enqueues
at most one request, and every enqueued request carries the given
connection hint. -/
theorem sendWithRetry_one_retry (env : SendEnv) (hint : Option ConnectionId)
    (timeout backoff : Nat) :
    (send_message_with_retry_and_timeout env hint 1 timeout backoff).sleeps = 0
    ∧ (send_message_with_retry_and_timeout env hint 1 timeout backoff).attempts ≤ 1
    ∧ ∀ p ∈ (send_message_with_retry_and_timeout env hint 1 timeout
        backoff).requests, p.2 = hint := by
  rw [send_message_with_retry_and_timeout]
  by_cases he : env.enqueueOk 0
  · by_cases ht : timeout < env.replyDelay 0
    · simp [sendLoopAux, he, ht]
    · rcases hrep : env.reply 0 with _ | e | _
      · simp [sendLoopAux, he, ht, hrep]
      · rcases e with _ | m
        · simp [sendLoopAux, he, ht, hrep]
        · simp [sendLoopAux, he, ht, hrep]
      · simp [sendLoopAux, he, ht, hrep]
  · simp [sendLoopAux, he]

/-- C10: `send_message` first dials the peer with the 5-second
`CONNECT_TIMEOUT`, failing the whole operation when the dial fails;
otherwise it delegates to the retry engine with exactly 1 attempt (hence
it can never backoff-sleep), no connection hint, and an overall timeout
computed by `send_timeout` from the message's encoded length. -/
theorem send_message_spec (env : SendEnv) (dial : Nat → DialResult)
    (message : BitswapMessage) :
    CONNECT_TIMEOUT = 5000
    ∧ (dial CONNECT_TIMEOUT = none → send_message env dial message = none)
    ∧ (∀ c, dial CONNECT_TIMEOUT = some c →
        send_message env dial message =
          some (send_message_with_retry_and_timeout env none 1
            (send_timeout message.encoded_len) 100))
    ∧ (∀ r, send_message env dial message = some r →
        r.sleeps = 0 ∧ r.attempts ≤ 1
        ∧ ∀ p ∈ r.requests, p.2 = (none : Option ConnectionId)) := by
  refine ⟨rfl, ?_, ?_, ?_⟩
  · intro h
    simp [send_message, h]
  · intro c h
    simp [send_message, h]
  · rcases hd : dial CONNECT_TIMEOUT with _ | c
    · intro r h
      rw [send_message, hd] at h
      cases h
    · intro r h
      rw [send_message, hd] at h
      cases h
      exact sendWithRetry_one_retry env none (send_timeout message.encoded_len) 100

/-- Witness for C10: a successful dial delegates to the engine with 1
retry, the `send_timeout` of the encoded length, and no hint. -/
theorem send_message_spec_witness :
    send_message allClosedEnv (fun _ => some (5, ⟨true⟩)) ⟨0⟩ =
      some (send_message_with_retry_and_timeout allClosedEnv none 1
        (send_timeout 0) 100) :=
  (send_message_spec allClosedEnv (fun _ => some (5, ⟨true⟩)) ⟨0⟩).2.2.1
    (5, ⟨true⟩) rfl

/-- C7: `new_message_sender` performs exactly one dial, with the fixed
5-second `CONNECT_TIMEOUT`; it fails exactly when that dial fails, and
otherwise caches the dial's (connection id, negotiated protocol) in the
handle; `supports_have` on the handle is exactly the cached protocol's
capability, computed purely from the handle without further dials. -/
theorem new_message_sender_spec (dialFn : PeerId → Nat → DialResult)
    (p : PeerId) (config : MessageSenderConfig) :
    (new_message_sender dialFn p config).1 = [(p, CONNECT_TIMEOUT)]
    ∧ CONNECT_TIMEOUT = 5000
    ∧ (dialFn p CONNECT_TIMEOUT = none →
        (new_message_sender dialFn p config).2 = none)
    ∧ (∀ cid pid, dialFn p CONNECT_TIMEOUT = some (cid, pid) →
        (new_message_sender dialFn p config).2 = some ⟨p, config, cid, pid⟩
        ∧ MessageSender.supports_have ⟨p, config, cid, pid⟩ =
            pid.supports_have) := by
  refine ⟨rfl, rfl, ?_, ?_⟩
  · intro h
    simp [new_message_sender, h]
  · intro cid pid h
    exact ⟨by simp [new_message_sender, h], rfl⟩

/-- Witness for C7: a dial that negotiates a have-supporting protocol is
cached and reflected by `supports_have`. -/
theorem new_message_sender_spec_witness :
    (new_message_sender (fun _ _ => some (7, ⟨true⟩)) 1
        MessageSenderConfig.default).2 =
      some ⟨1, MessageSenderConfig.default, 7, ⟨true⟩⟩
    ∧ MessageSender.supports_have
        ⟨1, MessageSenderConfig.default, 7, ⟨true⟩⟩ =
      ProtocolId.supports_have ⟨true⟩ :=
  (new_message_sender_spec (fun _ _ => some (7, ⟨true⟩)) 1
    MessageSenderConfig.default).2.2.2 7 ⟨true⟩ rfl

/-- C8: `ping` is wrapped in a 30-second overall timeout; a driver reply of
"no measurement available" yields the unavailable-style error, never a
zero duration; a successful result only ever arises from a driver-supplied
measurement, returned unchanged. -/
theorem ping_spec :
    PING_TIMEOUT = 30000
    ∧ (∀ delay rep, PING_TIMEOUT < delay → ping true delay rep = .elapsed)
    ∧ (∀ delay, delay ≤ PING_TIMEOUT →
        ping true delay (.value none) = .noPingAvailable)
    ∧ (∀ sendOk delay rep d, ping sendOk delay rep = .ok d →
        rep = .value (some d)) := by
  refine ⟨rfl, ?_, ?_, ?_⟩
  · intro delay rep h
    simp [ping, h]
  · intro delay h
    simp [ping, Nat.not_lt.mpr h]
  · intro sendOk delay rep d h
    cases sendOk
    · simp [ping] at h
    · by_cases ht : PING_TIMEOUT < delay
      · simp [ping, ht] at h
      · rcases rep with _ | v
        · simp [ping, ht] at h
        · rcases v with _ | x
          · simp [ping, ht] at h
          · simp [ping, ht] at h
            simp [h]

/-- Witness for C8: a `None` measurement within the deadline reports the
unavailable error; a reply slower than 30s reports the deadline error. -/
theorem ping_spec_witness :
    ping true 0 (.value none) = .noPingAvailable
    ∧ ping true 30001 .closed = .elapsed :=
  ⟨ping_spec.2.2.1 0 (by decide), ping_spec.2.1 30001 .closed (by decide)⟩

/-- C3 counterexample: with the outbound queue at its capacity of 1024, a
connected crossbeam `send` neither succeeds nor fails immediately with a
queue-full error — it blocks the calling thread, contradicting the claim
that an enqueue at capacity fails immediately with a `QueueFull` error and
that a caller never blocks. -/
theorem enqueue_at_capacity_blocks :
    channelSend true fullNetworkQueue 0 = ChanSendResult.blocked
    ∧ (channelSend true fullNetworkQueue 0).isImmediate = false := by
  have hlen : fullNetworkQueue.items.length = fullNetworkQueue.cap :=
    List.length_replicate _ _
  have h : channelSend true fullNetworkQueue 0 = ChanSendResult.blocked := by
    rw [channelSend, if_neg (by decide : ¬ (!true) = true),
      if_neg (by omega : ¬ fullNetworkQueue.items.length < fullNetworkQueue.cap)]
  exact ⟨h, by rw [h]; rfl⟩

/-- C3 amended: an enqueue below capacity succeeds immediately by
appending; at capacity a connected `send` blocks the caller until space
frees (there is no queue-full error return); only a disconnected channel
yields an immediate error. The capacity `Network::new` passes is 1024. -/
theorem channelSend_spec {α : Type} (q : BoundedQueue α) (a : α) :
    NETWORK_QUEUE_CAP = 1024
    ∧ (q.items.length < q.cap →
        channelSend true q a = .sent ⟨q.cap, q.items ++ [a]⟩
        ∧ (channelSend true q a).isImmediate = true)
    ∧ (¬ q.items.length < q.cap → channelSend true q a = .blocked)
    ∧ channelSend false q a = .disconnected := by
  refine ⟨rfl, ?_, ?_, by simp [channelSend]⟩
  · intro h
    have hs : channelSend true q a = .sent ⟨q.cap, q.items ++ [a]⟩ := by
      simp [channelSend, h]
    exact ⟨hs, by rw [hs]; rfl⟩
  · intro h
    simp [channelSend, h]

/-- Witness for C3's amended claim: a below-capacity enqueue succeeds
immediately, appending the event. -/
theorem channelSend_spec_witness :
    channelSend true (⟨2, []⟩ : BoundedQueue Nat) 5 =
      ChanSendResult.sent ⟨2, [5]⟩ :=
  ((channelSend_spec (⟨2, []⟩ : BoundedQueue Nat) 5).2.1 (by decide)).1

end IrohBitswap
